import Mathlib

/-!
Verification of the aggregation-and-resilience core of the stocks REST API
(`src/cache.py`, `src/models.py`, `src/services/polygon_service.py`,
`src/services/marketwatch_scraper.py`, `src/main.py`).

Modelling conventions:
* Python floats are modelled as rationals (`ℚ`); every concrete value the
  properties mention is exactly representable, and the arithmetic involved
  (decimal parsing, multiplication by powers of ten) is exact at those values.
* Python dicts that the code only reads through a fixed set of keys are
  modelled as structures with `Option` fields (a missing key is `none`);
  dict truthiness ("non-empty") is modelled by an explicit `truthy` function
  over those fields plus an `extraKeys` flag that stands for all keys the
  code never reads.
* Exceptions are modelled with `Except`: a function that can raise
  `HTTPException` returns `Except HTTPException α`.
* `time.time()` and `date.today()` become explicit `now : ℚ` and
  `today : ℤ` parameters (a date is a day number).
* Network I/O becomes an explicit outcome parameter describing what
  `requests.get` did (a response with a status code and parsed body, a
  connection error, a timeout, ...), exactly the cases the code handles.
-/

/-! ## Data model (src/models.py) -/

/-- Model of `models.StockValues`: the four OHLC floats. -/
structure StockValues where
  «open» : ℚ
  high : ℚ
  low : ℚ
  close : ℚ
deriving DecidableEq, Repr

/-- Model of `models.PerformanceData`: five optional percentage floats, all default
`None`. -/
structure PerformanceData where
  five_days : Option ℚ := none
  one_month : Option ℚ := none
  three_months : Option ℚ := none
  year_to_date : Option ℚ := none
  one_year : Option ℚ := none
deriving DecidableEq, Repr

/-- Model of `models.MarketCap`. -/
structure MarketCap where
  currency : String
  value : ℚ
deriving DecidableEq, Repr

/-- Model of `models.Competitor`. -/
structure Competitor where
  name : String
  market_cap : MarketCap
deriving DecidableEq, Repr

/-- Model of `models.Stock`: the aggregated result record. `purchased_amount` and
`purchased_status` default to `None` exactly as in the pydantic model. -/
structure Stock where
  status : String
  purchased_amount : Option ℚ := none
  purchased_status : Option String := none
  request_data : ℤ
  company_code : String
  company_name : String
  stock_values : StockValues
  performance_data : PerformanceData
  competitors : List Competitor
deriving DecidableEq, Repr

/-! ## Expiring cache (src/cache.py) -/

/-- Model of `cache.TTLCache`: the dict `{key: (value, expiry_timestamp)}` is modelled
as a function from keys to an optional `(value, expiry)` pair, together with
the configured `ttl_seconds`. -/
structure TTLCache (α : Type) where
  cache : String → Option (α × ℚ)
  ttl_seconds : ℚ

/-- Model of `TTLCache.get`: returns the stored value while `time.time() < expiry_time`;
an expired entry is deleted (`del self.cache[key]`) and `None` is returned.
The (possibly updated) cache is returned alongside the Python return value. -/
def TTLCache.get {α : Type} (c : TTLCache α) (now : ℚ) (key : String) :
    Option α × TTLCache α :=
  match c.cache key with
  | some (value, expiry_time) =>
      if now < expiry_time then
        (some value, c)
      else
        (none, { c with cache := fun k => if k = key then none else c.cache k })
  | none => (none, c)

/-- Model of `TTLCache.set`: stores `(value, time.time() + ttl_seconds)` under `key`. -/
def TTLCache.set {α : Type} (c : TTLCache α) (now : ℚ) (key : String)
    (value : α) : TTLCache α :=
  { c with
    cache := fun k =>
      if k = key then some (value, now + c.ttl_seconds) else c.cache k }

/-- Model of `TTLCache.clear`: empties all entries. -/
def TTLCache.clear {α : Type} (c : TTLCache α) : TTLCache α :=
  { c with cache := fun _ => none }

/-- C3: a `set` at time `now` followed by a `get` at time `t` on the same key
returns the identical stored value (leaving the cache unchanged) while
`t < now + ttl`; once the TTL has elapsed the `get` returns `none` and the
entry is physically deleted from the store. -/
theorem c3_cache_set_get_ttl {α : Type} (c : TTLCache α) (now t : ℚ)
    (key : String) (value : α) :
    (t < now + c.ttl_seconds →
      (c.set now key value).get t key = (some value, c.set now key value)) ∧
    (now + c.ttl_seconds ≤ t →
      ((c.set now key value).get t key).1 = none ∧
      (((c.set now key value).get t key).2).cache key = none) := by
  constructor
  · intro h
    simp [TTLCache.get, TTLCache.set, h]
  · intro h
    simp [TTLCache.get, TTLCache.set, not_lt.mpr h]

/-- Witness for C3 at a concrete cache: store the rational 7 under "AAPL" at
time 0 with TTL 300; reading at time 100 yields it, reading at time 400
yields `none` and the entry is gone. -/
theorem c3_cache_set_get_ttl_witness :
    ((({ cache := fun _ => none, ttl_seconds := 300 } : TTLCache ℚ).set 0
        "AAPL" 7).get 100 "AAPL").1 = some 7 ∧
    ((({ cache := fun _ => none, ttl_seconds := 300 } : TTLCache ℚ).set 0
        "AAPL" 7).get 400 "AAPL").1 = none ∧
    (((({ cache := fun _ => none, ttl_seconds := 300 } : TTLCache ℚ).set 0
        "AAPL" 7).get 400 "AAPL").2).cache "AAPL" = none := by
  refine ⟨?_, ?_, ?_⟩
  · have h := (c3_cache_set_get_ttl
      ({ cache := fun _ => none, ttl_seconds := 300 } : TTLCache ℚ) 0 100
      "AAPL" 7).1 (by norm_num)
    rw [h]
  · exact ((c3_cache_set_get_ttl
      ({ cache := fun _ => none, ttl_seconds := 300 } : TTLCache ℚ) 0 400
      "AAPL" 7).2 (by norm_num)).1
  · exact ((c3_cache_set_get_ttl
      ({ cache := fun _ => none, ttl_seconds := 300 } : TTLCache ℚ) 0 400
      "AAPL" 7).2 (by norm_num)).2

/-! ## Typed errors (fastapi.HTTPException as raised by the services) -/

/-- Detail payload of an `HTTPException`: the code passes either a plain
string or a dict `{"status": ..., "message": ...}` (whose status entry can be
`None`, hence the `Option`). -/
inductive ExcDetail where
  | text (s : String)
  | statusMessage (status : Option String) (message : String)
deriving DecidableEq, Repr

/-- Model of `fastapi.HTTPException(status_code=..., detail=...)`. -/
structure HTTPException where
  status_code : Nat
  detail : ExcDetail
deriving DecidableEq, Repr

/-! ## Quote source client (src/services/polygon_service.py) -/

/-- JSON body of a Polygon.io response, restricted to the keys the code
reads: `status`, `message`, `error`, the OHLC floats of the open-close
endpoint, and the `results` object of the ticker-details endpoint.
`extraKeys` stands for all other keys (`from`, `symbol`, `volume`, ...) and
only matters for dict truthiness. -/
structure ResultsBody where
  name : Option String := none
  extraKeys : Bool := false
deriving DecidableEq, Repr

/-- Truthiness of the `results` dict: non-empty. -/
def ResultsBody.truthy (r : ResultsBody) : Bool :=
  r.name.isSome || r.extraKeys

/-- Truthiness of `company_details.get("name")`: the key is present and its
value is a non-empty string. -/
def ResultsBody.nameTruthy (r : ResultsBody) : Bool :=
  match r.name with
  | some s => !(s == "")
  | none => false

/-- Top-level Polygon JSON body (see `ResultsBody` for conventions). -/
structure PolygonBody where
  status : Option String := none
  message : Option String := none
  error : Option String := none
  «open» : Option ℚ := none
  high : Option ℚ := none
  low : Option ℚ := none
  close : Option ℚ := none
  results : Option ResultsBody := none
  extraKeys : Bool := false
deriving DecidableEq, Repr

/-- Truthiness of the top-level Polygon body as a dict: non-empty. The empty
dict `{}` returned on the soft "failed" path is the all-`none` record. -/
def PolygonBody.truthy (b : PolygonBody) : Bool :=
  b.status.isSome || b.message.isSome || b.error.isSome || b.«open».isSome ||
    b.high.isSome || b.low.isSome || b.close.isSome || b.results.isSome ||
    b.extraKeys

/-- Outcome of `requests.get` against Polygon.io, covering exactly the cases
`_make_request` handles: a response whose body parsed as JSON (`some body`)
or did not (`none`), a connection error, a timeout, or another request
exception. -/
inductive ReqOutcome where
  | response (status_code : Nat) (body : Option PolygonBody)
  | connError
  | timeout
  | reqError (msg : String)
deriving DecidableEq, Repr

/-- Model of `PolygonService._make_request`: JSON decoding failure is a 500; an HTTP
status ≥ 400 propagates the upstream status with the JSON error payload; a
body status of `"ERROR"` or `"NOT_FOUND"` raises 404; a body status of
`"failed"` returns the empty dict (soft "no data"); otherwise the body is
returned. Transport failures map to 503/504/500. -/
def PolygonService.make_request (r : ReqOutcome) :
    Except HTTPException PolygonBody :=
  match r with
  | .response code body =>
    match body with
    | none =>
      .error ⟨500, .text "Invalid JSON response from Polygon.io."⟩
    | some data =>
      if 400 ≤ code then
        .error ⟨code, .statusMessage (some (data.status.getD "error"))
          (data.message.getD "Polygon.io API error.")⟩
      else if data.status = some "ERROR" ∨ data.status = some "NOT_FOUND" then
        .error ⟨404, .statusMessage data.status
          (data.message.getD "Data not found or API error.")⟩
      else if data.status = some "failed" then
        .ok {}
      else
        .ok data
  | .connError =>
    .error ⟨503, .text "Could not connect to Polygon.io API."⟩
  | .timeout =>
    .error ⟨504, .text "Polygon.io API request timed out."⟩
  | .reqError msg =>
    .error ⟨500, .text ("An error occurred with Polygon.io: " ++ msg)⟩

/-- Model of `PolygonService.get_daily_open_close`: returns the whole body. -/
def PolygonService.get_daily_open_close (r : ReqOutcome) :
    Except HTTPException PolygonBody :=
  PolygonService.make_request r

/-- Model of `PolygonService.get_company_details`: returns `data.get("results", {})`. -/
def PolygonService.get_company_details (r : ReqOutcome) :
    Except HTTPException ResultsBody :=
  (PolygonService.make_request r).map (fun data => data.results.getD {})

/-! ## Structural extractor and scrape client
(src/services/marketwatch_scraper.py) -/

/-- Characters kept by the cleaning step
`re.sub(r'[^\dBMKTbmkt.]', '', market_cap_str)`, in the order the character
class lists them. -/
def isKeptChar (c : Char) : Bool :=
  c.isDigit || c == 'B' || c == 'M' || c == 'K' || c == 'T' ||
    c == 'b' || c == 'm' || c == 'k' || c == 't' || c == '.'

/-- Characters matched by `[\d.]`. -/
def isNumChar (c : Char) : Bool :=
  c.isDigit || c == '.'

/-- Value of a list of decimal digit characters. -/
def digitsToNat (cs : List Char) : Nat :=
  cs.foldl (fun a c => a * 10 + (c.toNat - 48)) 0

/-- Python's `float()` on a character list made of digits and periods, as fed
by both parsers: at most one period is accepted (`float("1.2.3")` raises
`ValueError`), an absent fractional or integral part reads as zero, and a
list that is empty or without any digit fails. Exponents, underscores, `inf`
and `nan` cannot occur in this character set. -/
def floatOfDecimalChars (cs : List Char) : Option ℚ :=
  if cs.all isNumChar then
    match cs.splitOn '.' with
    | [ip] => if ip = [] then none else some (digitsToNat ip : ℚ)
    | [ip, fp] =>
        if ip = [] ∧ fp = [] then none
        else some ((digitsToNat ip : ℚ) + (digitsToNat fp : ℚ) / 10 ^ fp.length)
    | _ => none
  else none

/-- Leading match of `re.match(r'(\d[\d.]*)([BMKT])?', cleaned_str)`: a digit
followed by the greedy run of digits/periods, returned together with the
remainder of the string. `none` when the string does not start with a digit
(then `re.match` fails). The two character classes are disjoint, so greedy
matching without backtracking is exact. -/
def matchNumericPart : List Char → Option (List Char × List Char)
  | [] => none
  | c :: cs =>
    if c.isDigit then some (c :: cs.takeWhile isNumChar, cs.dropWhile isNumChar)
    else none

/-- The optional `([BMKT])?` group, taken from the remainder right after the
numeric part. -/
def unitOf : List Char → Option Char
  | [] => none
  | c :: _ =>
    if c == 'B' || c == 'M' || c == 'K' || c == 'T' then some c else none

/-- Body of `MarketWatchScraper._parse_market_cap_string` after the cleaning
step, operating on the cleaned uppercased character list: regex match,
the (unreachable) empty/lone-period guard, `float()`, and the `if/elif`
unit-scaling chain in source order B, M, T, K. -/
def parseCleanedMarketCap (cleaned_str : List Char) : Option ℚ :=
  match matchNumericPart cleaned_str with
  | none => none
  | some (numerical_part, rest) =>
    if numerical_part = [] ∨ numerical_part = ['.'] then none
    else
      match floatOfDecimalChars numerical_part with
      | none => none
      | some value =>
        let unit := unitOf rest
        if unit = some 'B' then some (value * 1000000000)
        else if unit = some 'M' then some (value * 1000000)
        else if unit = some 'T' then some (value * 1000000000000)
        else if unit = some 'K' then some (value * 1000)
        else some value

/-- Model of `MarketWatchScraper._parse_market_cap_string`: empty input returns `None`
immediately; otherwise strip every character outside `[\dBMKTbmkt.]`,
uppercase, and parse. (`.strip()` is a no-op because no whitespace survives
the substitution.) -/
def MarketWatchScraper.parse_market_cap_string (market_cap_str : String) :
    Option ℚ :=
  if market_cap_str = "" then none
  else
    parseCleanedMarketCap ((market_cap_str.data.filter isKeptChar).map Char.toUpper)

/-- Characters the specification keeps: "digits, period, and the unit letters
B, M, K, T (case-insensitive)". -/
def specKeptChar (c : Char) : Bool :=
  c.isDigit || c == '.' || c == 'B' || c == 'b' || c == 'M' || c == 'm' ||
    c == 'K' || c == 'k' || c == 'T' || c == 't'

/-- Scan of the cleaned character list as the specification words it: match
the leading numeric prefix as a digit then any run of digits/periods,
optionally followed by one unit letter; reject an empty or lone-period
prefix; multiply the prefix value by the unit scale K=1e3, M=1e6, B=1e9,
T=1e12, or 1 when the unit is absent. -/
def specScan : List Char → Option ℚ
  | [] => none
  | c :: cs =>
    if c.isDigit then
      if (c :: cs.takeWhile isNumChar) = [] ∨
          (c :: cs.takeWhile isNumChar) = ['.'] then none
      else
        (floatOfDecimalChars (c :: cs.takeWhile isNumChar)).map (fun v =>
          match cs.dropWhile isNumChar with
          | [] => v
          | u :: _ =>
            if u == 'K' then v * 1000
            else if u == 'M' then v * 1000000
            else if u == 'B' then v * 1000000000
            else if u == 'T' then v * 1000000000000
            else v)
    else none

/-- The shorthand-numeric-parser as the specification words it (for the C2
refinement): strip every character except digits, period and the unit letters
(case-insensitive), uppercase, then scan. -/
def shorthandNumericSpec (s : String) : Option ℚ :=
  specScan ((s.data.filter specKeptChar).map Char.toUpper)

/-- The two keep-predicates agree on every character: they are the same ten
tests in a different order. -/
theorem keptChar_agrees (c : Char) : specKeptChar c = isKeptChar c := by
  have perm : ∀ d p B b M m K k T t : Bool,
      (d || p || B || b || M || m || K || k || T || t) =
        (d || B || M || K || T || b || m || k || t || p) := by decide
  exact perm c.isDigit (c == '.') (c == 'B') (c == 'b') (c == 'M') (c == 'm')
    (c == 'K') (c == 'k') (c == 'T') (c == 't')

/-- Filtering with pointwise-equal predicates gives the same list. -/
theorem filter_eq_of_agrees {α : Type} (p q : α → Bool) (h : ∀ a, p a = q a) :
    ∀ l : List α, l.filter p = l.filter q := by
  intro l
  induction l with
  | nil => rfl
  | cons a l ih => simp [List.filter_cons, h a, ih]

/-- The post-cleaning scans agree on every character list. -/
theorem parseCleaned_eq_specScan (L : List Char) :
    parseCleanedMarketCap L = specScan L := by
  cases L with
  | nil => rfl
  | cons c cs =>
    unfold parseCleanedMarketCap specScan matchNumericPart
    by_cases hd : c.isDigit
    · simp only [hd, if_true]
      cases hf : floatOfDecimalChars (c :: cs.takeWhile isNumChar) with
      | none => simp [hf]
      | some v =>
        simp only [hf, Option.map_some]
        cases hrest : cs.dropWhile isNumChar with
        | nil => simp [unitOf]
        | cons u t =>
          by_cases hB : u = 'B'
          · subst hB; simp [unitOf]
          · by_cases hM : u = 'M'
            · subst hM; simp [unitOf]
            · by_cases hK : u = 'K'
              · subst hK; simp [unitOf]
              · by_cases hT : u = 'T'
                · subst hT; simp [unitOf]
                · simp [unitOf, hB, hM, hK, hT]
    · simp [hd]

/-- C2: the market-cap shorthand parser strips every character except digits,
period and the unit letters B/M/K/T (case-insensitive), matches a leading
digit-then-digits/periods prefix with an optional unit letter, rejects an
empty or lone-period prefix, and scales by K=1e3, M=1e6, B=1e9, T=1e12 or 1;
in particular "1.23B", "45.6M", "900" and "2b" parse to the stated values and
"" and "." are unparseable. -/
theorem c2_shorthand_numeric_parse :
    (∀ s, MarketWatchScraper.parse_market_cap_string s =
      shorthandNumericSpec s) ∧
    MarketWatchScraper.parse_market_cap_string "1.23B" = some 1230000000 ∧
    MarketWatchScraper.parse_market_cap_string "45.6M" = some 45600000 ∧
    MarketWatchScraper.parse_market_cap_string "900" = some 900 ∧
    MarketWatchScraper.parse_market_cap_string "2b" = some 2000000000 ∧
    MarketWatchScraper.parse_market_cap_string "" = none ∧
    MarketWatchScraper.parse_market_cap_string "." = none := by
  refine ⟨?_, ?_, ?_, ?_, ?_, by rfl, by rfl⟩
  · intro s
    unfold MarketWatchScraper.parse_market_cap_string shorthandNumericSpec
    rw [filter_eq_of_agrees specKeptChar isKeptChar keptChar_agrees s.data]
    by_cases hs : s = ""
    · subst hs
      rfl
    · rw [if_neg hs, parseCleaned_eq_specScan]
  · rw [show MarketWatchScraper.parse_market_cap_string "1.23B" =
        some (((digitsToNat ['1'] : ℚ) + (digitsToNat ['2', '3'] : ℚ) / 10 ^ 2)
          * 1000000000) from rfl,
      show digitsToNat ['1'] = 1 from by decide,
      show digitsToNat ['2', '3'] = 23 from by decide]
    norm_num
  · rw [show MarketWatchScraper.parse_market_cap_string "45.6M" =
        some (((digitsToNat ['4', '5'] : ℚ) + (digitsToNat ['6'] : ℚ) / 10 ^ 1)
          * 1000000) from rfl,
      show digitsToNat ['4', '5'] = 45 from by decide,
      show digitsToNat ['6'] = 6 from by decide]
    norm_num
  · rw [show MarketWatchScraper.parse_market_cap_string "900" =
        some ((digitsToNat ['9', '0', '0'] : ℚ)) from rfl,
      show digitsToNat ['9', '0', '0'] = 900 from by decide]
    norm_num
  · rw [show MarketWatchScraper.parse_market_cap_string "2b" =
        some ((digitsToNat ['2'] : ℚ) * 1000000000) from rfl,
      show digitsToNat ['2'] = 2 from by decide]
    norm_num

/-- Python `float()` on the percent-stripped performance cell text: an
optional sign followed by a decimal form. (Exponent forms, `inf`/`nan` and
digit underscores never occur in these percentage cells and are not
modelled; surrounding whitespace is already stripped by `get_text`.) -/
def pyFloat (s : String) : Option ℚ :=
  match s.data with
  | '-' :: rest => (floatOfDecimalChars rest).map (fun v => -v)
  | '+' :: rest => floatOfDecimalChars rest
  | cs => floatOfDecimalChars cs

/-- Label normalisation
`.lower().replace(' ', '_').replace('-', '_').replace('.', '')`. -/
def normalizeLabel (s : String) : String :=
  String.mk (((s.toLower.data.map fun c => if c = ' ' then '_' else c).map
    fun c => if c = '-' then '_' else c).filter fun c => c ≠ '.')

/-- Whether `needle` occurs contiguously inside `hay` (Python's `in` on
strings). -/
def hasSubChars (needle : List Char) : List Char → Bool
  | [] => needle.isEmpty
  | c :: cs => needle.isPrefixOf (c :: cs) || hasSubChars needle cs

/-- Python `needle in label` for strings. -/
def labelHas (needle label : String) : Bool :=
  hasSubChars needle.data label.data

/-- One row of the performance table as the code observes it: how many
`td.table__cell` cells it has, the text of the first cell, and the text of
the `li.content__item.value` element inside the second cell (`none` when the
`ul` or `li` lookup fails). -/
structure PerfRow where
  num_cells : Nat
  label_raw : String
  value_text : Option String
deriving DecidableEq, Repr

/-- One row of the competitors table body as the code observes it: the text
of the `td.table__cell.w50` name cell and of the `td.table__cell.w25.number`
market-cap cell, `none` when the corresponding tag is missing. -/
structure CompetitorRow where
  name_tag : Option String
  market_cap_tag : Option String
deriving DecidableEq, Repr

/-- The parsed MarketWatch document, abstracted to what the scraper's
BeautifulSoup queries return: the rows of the table following the
"Performance" header (`none` when the header span, parent header or sibling
table is not found) and the body rows of the table following the
"Competitors" header (`none` when the header span, parent header, sibling
table or `tbody` is not found). -/
structure ScrapeDoc where
  performance_rows : Option (List PerfRow) := none
  competitor_rows : Option (List CompetitorRow) := none
deriving DecidableEq, Repr

/-- The scrape result dict `{"performance_data": ..., "competitors": ...}`. -/
structure ScrapeResult where
  performance_data : PerformanceData
  competitors : List Competitor
deriving DecidableEq, Repr

/-- Truthiness of the scrape result: the returned dict literal always has the
two keys, so it is always non-empty, hence truthy. -/
def ScrapeResult.truthy (_ : ScrapeResult) : Bool :=
  true

/-- Processing of one performance row: rows without exactly two cells are
skipped; a missing value tag is skipped; the value text has every `%`
removed and is parsed as a float, a parse failure skipping the field; the
normalised label is matched by substring containment against the five known
fragments in the `if/elif` source order. -/
def perfRowStep (performance_data : PerformanceData) (row : PerfRow) :
    PerformanceData :=
  if row.num_cells = 2 then
    let label_text := normalizeLabel row.label_raw
    match row.value_text with
    | none => performance_data
    | some vt =>
      let value_text := String.mk (vt.data.filter fun c => c ≠ '%')
      match pyFloat value_text with
      | none => performance_data
      | some float_value =>
        if labelHas "5_day" label_text then
          { performance_data with five_days := some float_value }
        else if labelHas "1_month" label_text then
          { performance_data with one_month := some float_value }
        else if labelHas "3_month" label_text then
          { performance_data with three_months := some float_value }
        else if labelHas "ytd" label_text then
          { performance_data with year_to_date := some float_value }
        else if labelHas "1_year" label_text then
          { performance_data with one_year := some float_value }
        else performance_data
  else performance_data

/-- The performance-section half of the extractor: a missing section yields
the default (all-`None`) record, otherwise the rows are folded in document
order. -/
def extract_performance (rows : Option (List PerfRow)) : PerformanceData :=
  match rows with
  | none => {}
  | some rs => rs.foldl perfRowStep {}

/-- Processing of one competitor row: both cells must be present; the
currency is detected from the raw market-cap text (yen → JPY, won → KRW,
default USD); a row whose market-cap shorthand fails to parse is dropped. -/
def rowCompetitor (row : CompetitorRow) : Option Competitor :=
  match row.name_tag, row.market_cap_tag with
  | some name, some market_cap_str =>
    let currency :=
      if market_cap_str.contains '¥' then "JPY"
      else if market_cap_str.contains '₩' then "KRW"
      else "USD"
    match MarketWatchScraper.parse_market_cap_string market_cap_str with
    | some market_cap_value =>
      some ⟨name, ⟨currency, market_cap_value⟩⟩
    | none => none
  | _, _ => none

/-- The competitors-section half of the extractor: a missing section (or
missing table body) yields the empty sequence, otherwise qualifying rows are
collected in document order. -/
def extract_competitors (rows : Option (List CompetitorRow)) :
    List Competitor :=
  match rows with
  | none => []
  | some rs => rs.filterMap rowCompetitor

/-- The structural extraction performed on a successfully fetched document
(the body of `scrape_performance_and_competitors` after
`response.raise_for_status()`). -/
def scrape_extract (doc : ScrapeDoc) : ScrapeResult :=
  { performance_data := extract_performance doc.performance_rows,
    competitors := extract_competitors doc.competitor_rows }

/-- Outcome of `requests.get` against MarketWatch. -/
inductive ScrapeReqOutcome where
  | response (status_code : Nat) (doc : ScrapeDoc)
  | connError
  | timeout
  | reqError (msg : String)
deriving DecidableEq, Repr

/-- Model of `MarketWatchScraper.scrape_performance_and_competitors`:
`raise_for_status` turns a 4xx/5xx response into an `HTTPError`, mapped to
401 (cookie remediation), 404 (symbol not found) or the upstream code; a
connection error maps to 503, a timeout to 504, another request exception to
500. On a non-error response the extractor runs and the two-key result dict
is returned. (The generic HTTP detail embeds the exception text, abstracted
here to a fixed message.) -/
def MarketWatchScraper.scrape_performance_and_competitors (symbol : String)
    (r : ScrapeReqOutcome) : Except HTTPException ScrapeResult :=
  match r with
  | .response status_code doc =>
    if 400 ≤ status_code ∧ status_code < 600 then
      if status_code = 401 then
        .error ⟨401, .text "MarketWatch scraping failed: 401 Unauthorized. Ensure a valid MARKETWATCH_COOKIE is set."⟩
      else if status_code = 404 then
        .error ⟨404, .text ("MarketWatch page not found for " ++ symbol ++ ".")⟩
      else
        .error ⟨status_code, .text "MarketWatch HTTP error"⟩
    else
      .ok (scrape_extract doc)
  | .connError =>
    .error ⟨503, .text "Could not connect to MarketWatch."⟩
  | .timeout =>
    .error ⟨504, .text "MarketWatch scraping timed out."⟩
  | .reqError msg =>
    .error ⟨500, .text ("An error occurred with MarketWatch scraping: " ++ msg)⟩

/-! ## Aggregator (src/main.py, get_stock_data) -/

/-- Outcomes of the three sub-fetches, in call order: the daily open-close
fetch, the company-details fetch, and the MarketWatch scrape. An `.error`
value models the awaited call raising that `HTTPException`. -/
structure FetchEnv where
  daily : Except HTTPException PolygonBody
  details : Except HTTPException ResultsBody
  scrape : Except HTTPException ScrapeResult

/-- The first hard error the `try` block of `get_stock_data` encounters,
following the sequential evaluation order (a raise skips the later
fetches). -/
def FetchEnv.firstError (env : FetchEnv) : Option HTTPException :=
  match env.daily with
  | .error e => some e
  | .ok _ =>
    match env.details with
    | .error e => some e
    | .ok _ =>
      match env.scrape with
      | .error e => some e
      | .ok _ => none

/-- Number of calls issued to each source client during one request
(observable through the test suite's mocks). -/
structure Calls where
  quoteCalls : Nat
  profileCalls : Nat
  scrapeCalls : Nat
deriving DecidableEq, Repr

/-- Observable outcome of one `GET /stock/{symbol}` request: the returned
value or raised exception, the cache afterwards, the calls made to the
clients, and the date string argument passed to the daily quote fetch
(`none` when that call never happened). -/
structure GetStockOut where
  result : Except HTTPException Stock
  cache : TTLCache Stock
  calls : Calls
  quoteDateArg : Option ℤ

/-- The truthiness test `if company_details and company_details.get("name")`. -/
def companyNameOk (company_details : ResultsBody) : Bool :=
  company_details.truthy && company_details.nameTruthy

/-- Python `str.upper()`, character by character (the symbols in play are
ASCII). -/
def pyUpper (s : String) : String :=
  String.mk (s.data.map Char.toUpper)

/-- Model of `main.get_stock_data`: uppercase-normalise the symbol; serve a cache hit
directly (a pydantic `Stock` is always truthy, so `if cached_stock` is a
presence test); on a miss compute `yesterday = today - timedelta(days=2)`
and run the three fetches in order inside one `try` block, each soft-empty
sub-result contributing defaults and appending its phrase to the running
status; an `HTTPException` from any fetch is re-raised unchanged and skips
the construction and caching steps; otherwise the `Stock` is built with
today's date, cached under the normalised symbol, and returned. -/
def get_stock_data (env : FetchEnv) (stock_cache : TTLCache Stock) (now : ℚ)
    (today : ℤ) (stock_symbol : String) : GetStockOut :=
  let symbol_upper := pyUpper stock_symbol
  let looked := stock_cache.get now symbol_upper
  let cache1 := looked.2
  match looked.1 with
  | some cached_stock =>
    { result := .ok cached_stock, cache := cache1, calls := ⟨0, 0, 0⟩,
      quoteDateArg := none }
  | none =>
    let yesterday := today - 2
    match env.daily with
    | .error e =>
      { result := .error e, cache := cache1, calls := ⟨1, 0, 0⟩,
        quoteDateArg := some yesterday }
    | .ok polygon_data =>
      let stock_values : StockValues :=
        if polygon_data.truthy then
          ⟨polygon_data.«open».getD 0, polygon_data.high.getD 0,
            polygon_data.low.getD 0, polygon_data.close.getD 0⟩
        else ⟨0, 0, 0, 0⟩
      let status1 :=
        if polygon_data.truthy then "Success"
        else "Success" ++ " (Polygon daily data not available)"
      match env.details with
      | .error e =>
        { result := .error e, cache := cache1, calls := ⟨1, 1, 0⟩,
          quoteDateArg := some yesterday }
      | .ok company_details =>
        let company_name :=
          if companyNameOk company_details then company_details.name.getD "N/A"
          else "N/A"
        let status2 :=
          if companyNameOk company_details then status1
          else status1 ++ " (Company name not found)"
        match env.scrape with
        | .error e =>
          { result := .error e, cache := cache1, calls := ⟨1, 1, 1⟩,
            quoteDateArg := some yesterday }
        | .ok scraped_data =>
          let performance_data :=
            if scraped_data.truthy then scraped_data.performance_data else {}
          let competitors :=
            if scraped_data.truthy then scraped_data.competitors else []
          let status3 :=
            if scraped_data.truthy then status2
            else status2 ++ " (MarketWatch data not available)"
          let stock_data : Stock :=
            { status := status3,
              purchased_amount := none,
              purchased_status := none,
              request_data := today,
              company_code := symbol_upper,
              company_name := company_name,
              stock_values := stock_values,
              performance_data := performance_data,
              competitors := competitors }
          let cache2 := cache1.set now symbol_upper stock_data
          { result := .ok stock_data, cache := cache2, calls := ⟨1, 1, 1⟩,
            quoteDateArg := some yesterday }

/-! ## Helper facts about cache lookups -/

/-- After a miss (the lookup returned `None`), the returned cache holds no
entry for the key and every other key is untouched. -/
theorem TTLCache.get_miss_state {α : Type} (c : TTLCache α) (now : ℚ)
    (key : String) (h : (c.get now key).1 = none) :
    ((c.get now key).2).cache key = none ∧
    ∀ k, k ≠ key → ((c.get now key).2).cache k = c.cache k := by
  rcases hc : c.cache key with _ | ⟨v, expiry⟩
  · unfold TTLCache.get
    simp [hc]
  · by_cases hlt : now < expiry
    · exfalso
      unfold TTLCache.get at h
      rw [hc] at h
      simp [hlt] at h
    · unfold TTLCache.get
      rw [hc]
      simp only [if_neg hlt]
      refine ⟨by simp, fun k hk => by simp [hk]⟩

/-- After a hit, the returned value sits in the cache under the key with an
unexpired expiry, and the cache is returned unchanged. -/
theorem TTLCache.get_hit {α : Type} (c : TTLCache α) (now : ℚ)
    (key : String) (v : α) (h : (c.get now key).1 = some v) :
    (∃ expiry, c.cache key = some (v, expiry)) ∧ (c.get now key).2 = c := by
  rcases hc : c.cache key with _ | ⟨w, exp2⟩
  · exfalso
    unfold TTLCache.get at h
    simp [hc] at h
  · by_cases hlt : now < exp2
    · have h2 : w = v := by
        unfold TTLCache.get at h
        simp [hc, hlt] at h
        exact h
      subst h2
      constructor
      · exact ⟨exp2, rfl⟩
      · unfold TTLCache.get
        simp [hc, hlt]
    · exfalso
      unfold TTLCache.get at h
      simp [hc, hlt] at h

/-- A key with no entry at all produces a miss and leaves the cache value
untouched. -/
theorem TTLCache.get_none {α : Type} (c : TTLCache α) (now : ℚ)
    (key : String) (h : c.cache key = none) : c.get now key = (none, c) := by
  unfold TTLCache.get
  rw [h]

/-- On any cache miss the daily quote client is called exactly once, and when
no sub-fetch raises, each of the three clients is called exactly once. -/
theorem get_stock_data_miss_calls (env : FetchEnv) (cache : TTLCache Stock)
    (now : ℚ) (today : ℤ) (stock_symbol : String)
    (hmiss : (cache.get now (pyUpper stock_symbol)).1 = none) :
    (get_stock_data env cache now today stock_symbol).calls.quoteCalls = 1 ∧
    (env.firstError = none →
      (get_stock_data env cache now today stock_symbol).calls = ⟨1, 1, 1⟩) := by
  rcases hd : env.daily with e | pd
  · constructor
    · simp [get_stock_data, hmiss, hd]
    · intro hz
      exfalso
      simp [FetchEnv.firstError, hd] at hz
  · rcases hdet : env.details with e | cd
    · constructor
      · simp [get_stock_data, hmiss, hd, hdet]
      · intro hz
        exfalso
        simp [FetchEnv.firstError, hd, hdet] at hz
    · rcases hs : env.scrape with e | sd <;>
        constructor <;>
        simp [get_stock_data, hmiss, hd, hdet, hs]

/-- C4: when the uppercase-normalised symbol has an unexpired cache entry,
`get_stock_data` returns the cached value, issues zero calls to the quote,
profile and scrape clients, and leaves the cache unmodified. -/
theorem c4_cache_hit_no_calls (env : FetchEnv) (cache : TTLCache Stock)
    (now : ℚ) (today : ℤ) (stock_symbol : String) (v : Stock) (expiry : ℚ)
    (hentry : cache.cache (pyUpper stock_symbol) = some (v, expiry))
    (hfresh : now < expiry) :
    (get_stock_data env cache now today stock_symbol).result = .ok v ∧
    (get_stock_data env cache now today stock_symbol).calls = ⟨0, 0, 0⟩ ∧
    (get_stock_data env cache now today stock_symbol).cache = cache := by
  unfold get_stock_data
  simp [TTLCache.get, hentry, hfresh]

/-- A stock value used by concrete witnesses. -/
def sampleStock : Stock :=
  { status := "Success", request_data := 0, company_code := "AAPL",
    company_name := "Apple Inc.",
    stock_values := ⟨130, 132, 129.5, 131.5⟩,
    performance_data := {}, competitors := [] }

/-- A cache holding `sampleStock` under "AAPL" until time 300. -/
def cacheWithAAPL : TTLCache Stock :=
  { cache := fun k => if k = "AAPL" then some (sampleStock, 300) else none,
    ttl_seconds := 300 }

/-- An environment in which all three fetches succeed with soft-empty
payloads. -/
def okEnvEmpty : FetchEnv :=
  { daily := .ok {}, details := .ok {},
    scrape := .ok ⟨{}, []⟩ }

/-- An empty cache used by concrete witnesses. -/
def emptyStockCache : TTLCache Stock :=
  { cache := fun _ => none, ttl_seconds := 300 }

/-- Witness for C4: a request for "aapl" at time 100 against a cache holding
"AAPL" until 300 is served from the cache with zero client calls. -/
theorem c4_cache_hit_no_calls_witness :
    (get_stock_data okEnvEmpty cacheWithAAPL 100 1 "aapl").result =
      .ok sampleStock ∧
    (get_stock_data okEnvEmpty cacheWithAAPL 100 1 "aapl").calls =
      ⟨0, 0, 0⟩ ∧
    (get_stock_data okEnvEmpty cacheWithAAPL 100 1 "aapl").cache =
      cacheWithAAPL :=
  c4_cache_hit_no_calls okEnvEmpty cacheWithAAPL 100 1 "aapl" sampleStock 300
    (by rfl) (by norm_num)

/-- C8: on every cache miss the date handed to the daily-quote fetch is two
days before today (despite the variable being named "yesterday"), while the
`request_data` of any returned stock is today's date. -/
theorem c8_quote_date_two_days_back (env : FetchEnv) (cache : TTLCache Stock)
    (now : ℚ) (today : ℤ) (stock_symbol : String)
    (hmiss : (cache.get now (pyUpper stock_symbol)).1 = none) :
    (get_stock_data env cache now today stock_symbol).quoteDateArg =
      some (today - 2) ∧
    ∀ st, (get_stock_data env cache now today stock_symbol).result = .ok st →
      st.request_data = today := by
  rcases hd : env.daily with e | pd
  · simp [get_stock_data, hmiss, hd]
  · rcases hdet : env.details with e | cd
    · simp [get_stock_data, hmiss, hd, hdet]
    · rcases hs : env.scrape with e | sd
      · simp [get_stock_data, hmiss, hd, hdet, hs]
      · constructor
        · simp [get_stock_data, hmiss, hd, hdet, hs]
        · intro st hst
          simp [get_stock_data, hmiss, hd, hdet, hs] at hst
          rw [← hst]

/-- Witness for C8: on an empty cache at day 10, the quote is fetched for
day 8 and the result is stamped with day 10. -/
theorem c8_quote_date_two_days_back_witness :
    (get_stock_data okEnvEmpty emptyStockCache 0 10 "AAPL").quoteDateArg =
      some 8 ∧
    ∀ st,
      (get_stock_data okEnvEmpty emptyStockCache 0 10 "AAPL").result =
        .ok st → st.request_data = 10 := by
  have h := c8_quote_date_two_days_back okEnvEmpty emptyStockCache 0 10 "AAPL"
    (by rfl)
  exact ⟨h.1.trans (by norm_num), h.2⟩

/-- C10: the read path never populates `purchased_amount` or
`purchased_status`: whenever every stock stored in the cache has both fields
`None` (an invariant that holds because only `get_stock_data` writes to this
cache), any stock it returns has both fields `None`, and the invariant is
preserved. -/
theorem c10_purchase_fields_never_populated (env : FetchEnv)
    (cache : TTLCache Stock) (now : ℚ) (today : ℤ) (stock_symbol : String)
    (hinv : ∀ k v expiry, cache.cache k = some (v, expiry) →
      v.purchased_amount = none ∧ v.purchased_status = none) :
    (∀ st, (get_stock_data env cache now today stock_symbol).result = .ok st →
      st.purchased_amount = none ∧ st.purchased_status = none) ∧
    (∀ k v expiry,
      ((get_stock_data env cache now today stock_symbol).cache).cache k =
        some (v, expiry) →
      v.purchased_amount = none ∧ v.purchased_status = none) := by
  constructor
  · intro st hst
    cases hres : (cache.get now (pyUpper stock_symbol)).1 with
    | some cached_stock =>
      obtain ⟨⟨expiry2, hentry⟩, -⟩ :=
        TTLCache.get_hit cache now (pyUpper stock_symbol) cached_stock hres
      simp only [get_stock_data, hres, Except.ok.injEq] at hst
      subst hst
      exact hinv _ _ _ hentry
    | none =>
      rcases hd : env.daily with e | pd
      · simp [get_stock_data, hres, hd] at hst
      · rcases hdet : env.details with e | cd
        · simp [get_stock_data, hres, hd, hdet] at hst
        · rcases hs : env.scrape with e | sd
          · simp [get_stock_data, hres, hd, hdet, hs] at hst
          · simp only [get_stock_data, hres, hd, hdet, hs,
              Except.ok.injEq] at hst
            subst hst
            exact ⟨rfl, rfl⟩
  · intro k v expiry hk
    cases hres : (cache.get now (pyUpper stock_symbol)).1 with
    | some cached_stock =>
      obtain ⟨-, hsame⟩ :=
        TTLCache.get_hit cache now (pyUpper stock_symbol) cached_stock hres
      simp only [get_stock_data, hres] at hk
      rw [hsame] at hk
      exact hinv _ _ _ hk
    | none =>
      obtain ⟨hkeynone, hother⟩ :=
        TTLCache.get_miss_state cache now (pyUpper stock_symbol) hres
      have hsub : ∀ k2 v2 e2,
          ((cache.get now (pyUpper stock_symbol)).2).cache k2 =
            some (v2, e2) →
          v2.purchased_amount = none ∧ v2.purchased_status = none := by
        intro k2 v2 e2 hk2
        by_cases hkk : k2 = pyUpper stock_symbol
        · rw [hkk, hkeynone] at hk2
          cases hk2
        · rw [hother k2 hkk] at hk2
          exact hinv _ _ _ hk2
      rcases hd : env.daily with e | pd
      · simp only [get_stock_data, hres, hd] at hk
        exact hsub _ _ _ hk
      · rcases hdet : env.details with e | cd
        · simp only [get_stock_data, hres, hd, hdet] at hk
          exact hsub _ _ _ hk
        · rcases hs : env.scrape with e | sd
          · simp only [get_stock_data, hres, hd, hdet, hs] at hk
            exact hsub _ _ _ hk
          · simp only [get_stock_data, hres, hd, hdet, hs,
              TTLCache.set] at hk
            by_cases hkk : k = pyUpper stock_symbol
            · rw [if_pos hkk] at hk
              simp only [Option.some.injEq, Prod.mk.injEq] at hk
              obtain ⟨h1, -⟩ := hk
              subst h1
              exact ⟨rfl, rfl⟩
            · rw [if_neg hkk] at hk
              exact hsub _ _ _ hk

/-- The stock composed by the C10 witness run: fully soft-empty sources. -/
def c10WitnessStock : Stock where
  status := "Success (Polygon daily data not available) (Company name not found)"
  request_data := 0
  company_code := "MSFT"
  company_name := "N/A"
  stock_values := ⟨0, 0, 0, 0⟩
  performance_data := {}
  competitors := []

/-- Witness for C10: on an empty cache the composed result has both purchase
fields `None`. -/
theorem c10_purchase_fields_never_populated_witness :
    (get_stock_data okEnvEmpty emptyStockCache 0 0 "MSFT").result =
      .ok c10WitnessStock ∧
    c10WitnessStock.purchased_amount = none ∧
    c10WitnessStock.purchased_status = none := by
  have h := (c10_purchase_fields_never_populated okEnvEmpty emptyStockCache
    0 0 "MSFT" (fun k v expiry hx => by simp [emptyStockCache] at hx)).1
    c10WitnessStock (by rfl)
  exact ⟨by rfl, h.1, h.2⟩

/-- C1: when the cache misses and a sub-fetch raises a typed hard error, the
first such error propagates to the caller unchanged, no entry is stored for
the symbol (all other keys untouched), and a subsequent call for the same
symbol re-attempts the fetches: the quote client is called again, and all
three clients are called when nothing raises. -/
theorem c1_hard_error_propagation (env : FetchEnv) (cache : TTLCache Stock)
    (now : ℚ) (today : ℤ) (stock_symbol : String) (e : HTTPException)
    (hmiss : (cache.get now (pyUpper stock_symbol)).1 = none)
    (herr : env.firstError = some e) :
    (get_stock_data env cache now today stock_symbol).result = .error e ∧
    ((get_stock_data env cache now today stock_symbol).cache).cache
      (pyUpper stock_symbol) = none ∧
    (∀ k, k ≠ pyUpper stock_symbol →
      ((get_stock_data env cache now today stock_symbol).cache).cache k =
        cache.cache k) ∧
    (∀ env2 now2 today2,
      (get_stock_data env2
        (get_stock_data env cache now today stock_symbol).cache now2 today2
        stock_symbol).calls.quoteCalls = 1) ∧
    (∀ env2 now2 today2, env2.firstError = none →
      (get_stock_data env2
        (get_stock_data env cache now today stock_symbol).cache now2 today2
        stock_symbol).calls = ⟨1, 1, 1⟩) := by
  have hout : (get_stock_data env cache now today stock_symbol).result =
      .error e ∧
      (get_stock_data env cache now today stock_symbol).cache =
        (cache.get now (pyUpper stock_symbol)).2 := by
    rcases hd : env.daily with e0 | pd
    · have he : e0 = e := by simpa [FetchEnv.firstError, hd] using herr
      subst he
      constructor <;> simp [get_stock_data, hmiss, hd]
    · rcases hdet : env.details with e0 | cd
      · have he : e0 = e := by
          simpa [FetchEnv.firstError, hd, hdet] using herr
        subst he
        constructor <;> simp [get_stock_data, hmiss, hd, hdet]
      · rcases hs : env.scrape with e0 | sd
        · have he : e0 = e := by
            simpa [FetchEnv.firstError, hd, hdet, hs] using herr
          subst he
          constructor <;> simp [get_stock_data, hmiss, hd, hdet, hs]
        · exfalso
          simp [FetchEnv.firstError, hd, hdet, hs] at herr
  obtain ⟨hres, hcache⟩ := hout
  obtain ⟨hkey, hother⟩ :=
    TTLCache.get_miss_state cache now (pyUpper stock_symbol) hmiss
  have h0 : ((get_stock_data env cache now today stock_symbol).cache).cache
      (pyUpper stock_symbol) = none := by
    rw [hcache]
    exact hkey
  refine ⟨hres, h0, ?_, ?_, ?_⟩
  · intro k hk
    rw [hcache]
    exact hother k hk
  · intro env2 now2 today2
    have hm2 := TTLCache.get_none
      (get_stock_data env cache now today stock_symbol).cache now2
      (pyUpper stock_symbol) h0
    exact (get_stock_data_miss_calls env2 _ now2 today2 stock_symbol
      (by rw [hm2])).1
  · intro env2 now2 today2 hz
    have hm2 := TTLCache.get_none
      (get_stock_data env cache now today stock_symbol).cache now2
      (pyUpper stock_symbol) h0
    exact (get_stock_data_miss_calls env2 _ now2 today2 stock_symbol
      (by rw [hm2])).2 hz

/-- A successful daily open-close body used by concrete witnesses. -/
def dailyOkBody : PolygonBody where
  status := some "OK"
  «open» := some 130
  high := some 132
  low := some 129.5
  close := some 131.5

/-- An environment in which the scrape client raises 503 Unavailable while
both Polygon fetches succeed. -/
def envScrapeDown : FetchEnv :=
  { daily := .ok dailyOkBody,
    details := .ok { name := some "Test Co" },
    scrape := .error ⟨503, .text "Could not connect to MarketWatch."⟩ }

/-- Witness for C1: the scrape client's 503 propagates unchanged, nothing is
cached for "MWFAIL", and a subsequent clean call fetches from all three
clients. -/
theorem c1_hard_error_propagation_witness :
    (get_stock_data envScrapeDown emptyStockCache 0 0 "MWFAIL").result =
      .error ⟨503, .text "Could not connect to MarketWatch."⟩ ∧
    ((get_stock_data envScrapeDown emptyStockCache 0 0 "MWFAIL").cache).cache
      "MWFAIL" = none ∧
    (get_stock_data okEnvEmpty
      (get_stock_data envScrapeDown emptyStockCache 0 0 "MWFAIL").cache 0 0
      "MWFAIL").calls = ⟨1, 1, 1⟩ := by
  have h := c1_hard_error_propagation envScrapeDown emptyStockCache 0 0
    "MWFAIL" ⟨503, .text "Could not connect to MarketWatch."⟩ (by rfl) (by rfl)
  exact ⟨h.1, h.2.1, h.2.2.2.2 okEnvEmpty 0 0 (by rfl)⟩

/-- C5: on a cache miss where the quote source reports soft "no data" (the
empty dict) while profile and scrape succeed, the result has a zero-valued
quote, the fetched profile, performance and competitors, and status exactly
"Success (Polygon daily data not available)"; in general the status of any
composed result is the base "Success" followed by zero or more degradation
phrases in sub-fetch order. -/
theorem c5_soft_empty_quote_composition (env : FetchEnv)
    (cache : TTLCache Stock) (now : ℚ) (today : ℤ) (stock_symbol : String)
    (d : PolygonBody) (r : ResultsBody) (sr : ScrapeResult) (nm : String)
    (hmiss : (cache.get now (pyUpper stock_symbol)).1 = none)
    (hdaily : env.daily = .ok d) (hqe : d.truthy = false)
    (hdetails : env.details = .ok r) (hname : r.name = some nm)
    (hnm : nm ≠ "") (hscrape : env.scrape = .ok sr) :
    (∃ st, (get_stock_data env cache now today stock_symbol).result =
        .ok st ∧
      st.stock_values = ⟨0, 0, 0, 0⟩ ∧
      st.company_name = nm ∧
      st.performance_data = sr.performance_data ∧
      st.competitors = sr.competitors ∧
      st.status = "Success (Polygon daily data not available)") ∧
    (∀ env2 (cache2 : TTLCache Stock) now2 today2 stock_symbol2 d2 r2 sr2,
      (cache2.get now2 (pyUpper stock_symbol2)).1 = none →
      env2.daily = .ok d2 → env2.details = .ok r2 → env2.scrape = .ok sr2 →
      ∃ st, (get_stock_data env2 cache2 now2 today2 stock_symbol2).result =
          .ok st ∧
        st.status = "Success" ++
          (if d2.truthy then "" else " (Polygon daily data not available)") ++
          (if companyNameOk r2 then "" else " (Company name not found)")) := by
  constructor
  · have hok : companyNameOk r = true := by
      simp [companyNameOk, ResultsBody.truthy, ResultsBody.nameTruthy, hname,
        hnm]
    simp only [get_stock_data, hmiss, hdaily, hdetails, hscrape]
    refine ⟨_, rfl, ?_, ?_, ?_, ?_, ?_⟩
    · simp [hqe]
    · simp [hok, hname]
    · simp [ScrapeResult.truthy]
    · simp [ScrapeResult.truthy]
    · simp [ScrapeResult.truthy, hok, hqe]
  · intro env2 cache2 now2 today2 stock_symbol2 d2 r2 sr2 hm hd hdet hs
    simp only [get_stock_data, hm, hd, hdet, hs]
    refine ⟨_, rfl, ?_⟩
    cases hdt : d2.truthy <;> cases hok2 : companyNameOk r2 <;>
      simp only [hdt, hok2, ScrapeResult.truthy, if_true, if_false,
        Bool.false_eq_true] <;>
      rfl

/-- Performance data used by the C5 witness. -/
def perfSample : PerformanceData :=
  { five_days := some 1.5, one_month := some 5 }

/-- A competitor used by the C5 witness. -/
def compSample : Competitor :=
  ⟨"Microsoft Corp.", ⟨"USD", 2000000000000⟩⟩

/-- An environment where the quote is soft-empty and the other two fetches
succeed. -/
def envQuoteEmpty : FetchEnv :=
  { daily := .ok {},
    details := .ok { name := some "Apple Inc." },
    scrape := .ok ⟨perfSample, [compSample]⟩ }

/-- Witness for C5 at a concrete environment. -/
theorem c5_soft_empty_quote_composition_witness :
    ∃ st, (get_stock_data envQuoteEmpty emptyStockCache 0 0 "AAPL").result =
        .ok st ∧
      st.stock_values = ⟨0, 0, 0, 0⟩ ∧
      st.company_name = "Apple Inc." ∧
      st.performance_data = perfSample ∧
      st.competitors = [compSample] ∧
      st.status = "Success (Polygon daily data not available)" :=
  have h := c5_soft_empty_quote_composition envQuoteEmpty emptyStockCache 0 0
    "AAPL" {} { name := some "Apple Inc." } ⟨perfSample, [compSample]⟩
    "Apple Inc." (by rfl) rfl (by rfl) rfl rfl (by decide) rfl
  h.1

/-- An environment whose scrape ran against a fetched document containing
neither a "Performance" nor a "Competitors" section, while both Polygon
fetches succeed. -/
def envScrapeEmptyDoc : FetchEnv :=
  { daily := .ok dailyOkBody,
    details := .ok { name := some "Apple Inc." },
    scrape := MarketWatchScraper.scrape_performance_and_competitors "AAPL"
      (.response 200 {}) }

/-- The stock that the C6 counterexample run composes: empty metrics, empty
competitors, and status exactly "Success". -/
def c6ExpectedStock : Stock where
  status := "Success"
  request_data := 0
  company_code := "AAPL"
  company_name := "Apple Inc."
  stock_values := ⟨130, 132, 129.5, 131.5⟩
  performance_data := {}
  competitors := []

/-- Counterexample for C6: with a successfully fetched document containing
neither section, the scrape yields an empty result, yet the composed status
is exactly "Success" — the MarketWatch degradation phrase is not appended,
because the scrape result dict always has two keys and is therefore truthy. -/
theorem c6_counterexample :
    (get_stock_data envScrapeEmptyDoc emptyStockCache 0 0 "AAPL").result =
      .ok c6ExpectedStock ∧
    c6ExpectedStock.status = "Success" ∧
    c6ExpectedStock.performance_data = ({} : PerformanceData) ∧
    c6ExpectedStock.competitors = [] ∧
    "Success" ≠ "Success (MarketWatch data not available)" := by
  exact ⟨rfl, rfl, rfl, rfl, by decide⟩

/-- C6 (amended): when the scrape completes without a hard error on a
document with neither section, the result composes the empty metrics and the
empty competitor sequence, and the status carries no MarketWatch phrase — it
is determined solely by the quote and profile branches. -/
theorem c6_empty_scrape_no_phrase (env : FetchEnv) (cache : TTLCache Stock)
    (now : ℚ) (today : ℤ) (stock_symbol : String) (d : PolygonBody)
    (r : ResultsBody) (doc : ScrapeDoc)
    (hmiss : (cache.get now (pyUpper stock_symbol)).1 = none)
    (hdaily : env.daily = .ok d) (hdetails : env.details = .ok r)
    (hscrape : env.scrape =
      MarketWatchScraper.scrape_performance_and_competitors
        (pyUpper stock_symbol) (.response 200 doc))
    (hperf : doc.performance_rows = none)
    (hcomp : doc.competitor_rows = none) :
    ∃ st, (get_stock_data env cache now today stock_symbol).result =
        .ok st ∧
      st.performance_data = {} ∧
      st.competitors = [] ∧
      st.status = "Success" ++
        (if d.truthy then "" else " (Polygon daily data not available)") ++
        (if companyNameOk r then "" else " (Company name not found)") := by
  have hs : env.scrape = .ok ⟨{}, []⟩ := by
    rw [hscrape]
    unfold MarketWatchScraper.scrape_performance_and_competitors
    simp [scrape_extract, extract_performance, extract_competitors, hperf,
      hcomp]
  simp only [get_stock_data, hmiss, hdaily, hdetails, hs]
  refine ⟨_, rfl, ?_, ?_, ?_⟩
  · simp [ScrapeResult.truthy]
  · simp [ScrapeResult.truthy]
  · cases hdt : d.truthy <;> cases hok : companyNameOk r <;>
      simp only [hdt, hok, ScrapeResult.truthy, if_true, if_false,
        Bool.false_eq_true] <;>
      rfl

/-- Witness for the amended C6 at a concrete environment. -/
theorem c6_empty_scrape_no_phrase_witness :
    ∃ st,
      (get_stock_data envScrapeEmptyDoc emptyStockCache 0 0 "AAPL").result =
        .ok st ∧
      st.performance_data = {} ∧
      st.competitors = [] ∧
      st.status = "Success" ++
        (if dailyOkBody.truthy then ""
          else " (Polygon daily data not available)") ++
        (if companyNameOk { name := some "Apple Inc." } then ""
          else " (Company name not found)") :=
  c6_empty_scrape_no_phrase envScrapeEmptyDoc emptyStockCache 0 0 "AAPL"
    dailyOkBody { name := some "Apple Inc." } {} (by rfl) rfl rfl rfl rfl rfl

/-- C7: the structural extraction is a total function on fetched documents;
a document with no "Competitors" section yields the empty competitor
sequence, and a row with both cells whose market-cap shorthand fails to
parse is dropped while the surrounding rows contribute exactly as they would
without it, in document order. -/
theorem c7_extractor_tolerance :
    (∀ doc : ScrapeDoc, doc.competitor_rows = none →
      (scrape_extract doc).competitors = []) ∧
    (∀ pre (row : CompetitorRow) post nm mcs,
      row.name_tag = some nm → row.market_cap_tag = some mcs →
      MarketWatchScraper.parse_market_cap_string mcs = none →
      extract_competitors (some (pre ++ row :: post)) =
        extract_competitors (some (pre ++ post))) := by
  constructor
  · intro doc h
    simp [scrape_extract, extract_competitors, h]
  · intro pre row post nm mcs hn hm hp
    have hrow : rowCompetitor row = none := by
      simp [rowCompetitor, hn, hm, hp]
    simp [extract_competitors, List.filterMap_append, List.filterMap_cons,
      hrow]

/-- Witness for C7: a missing section gives no competitors, and a row with
the unparseable shorthand "." is dropped while its neighbour survives. -/
theorem c7_extractor_tolerance_witness :
    (scrape_extract {}).competitors = [] ∧
    extract_competitors
        (some [⟨some "Bad Co", some "."⟩, ⟨some "Good Co", some "2B"⟩]) =
      extract_competitors (some [⟨some "Good Co", some "2B"⟩]) := by
  constructor
  · exact c7_extractor_tolerance.1 {} rfl
  · exact c7_extractor_tolerance.2 [] ⟨some "Bad Co", some "."⟩
      [⟨some "Good Co", some "2B"⟩] "Bad Co" "." rfl rfl (by rfl)

/-- C9: a company-details response whose JSON status is "ERROR" or
"NOT_FOUND" (with HTTP status below 400) makes the Polygon client raise a
404, which `get_stock_data` propagates as a hard error; only a success
response (status "OK") that merely lacks the `name` field composes softly
with the "N/A" sentinel and the company-name phrase. -/
theorem c9_details_not_found_is_hard (env : FetchEnv)
    (cache : TTLCache Stock) (now : ℚ) (today : ℤ) (stock_symbol : String)
    (d : PolygonBody) (code : Nat) (body : PolygonBody)
    (hmiss : (cache.get now (pyUpper stock_symbol)).1 = none)
    (hdaily : env.daily = .ok d)
    (hdetails : env.details =
      PolygonService.get_company_details (.response code (some body)))
    (hcode : code < 400) :
    ((body.status = some "ERROR" ∨ body.status = some "NOT_FOUND") →
      (get_stock_data env cache now today stock_symbol).result =
        .error ⟨404, .statusMessage body.status
          (body.message.getD "Data not found or API error.")⟩) ∧
    (∀ sr, env.scrape = .ok sr → body.status = some "OK" →
      (body.results.getD {}).name = none →
      ∃ st, (get_stock_data env cache now today stock_symbol).result =
          .ok st ∧
        st.company_name = "N/A" ∧
        st.status =
          (if d.truthy then "Success"
            else "Success" ++ " (Polygon daily data not available)") ++
          " (Company name not found)") := by
  have h1 : ¬ 400 ≤ code := not_le.mpr hcode
  constructor
  · intro hstatus
    have hdet : env.details = .error ⟨404, .statusMessage body.status
        (body.message.getD "Data not found or API error.")⟩ := by
      rw [hdetails]
      unfold PolygonService.get_company_details PolygonService.make_request
      rcases hstatus with h | h <;> simp [h1, h, Except.map]
    simp [get_stock_data, hmiss, hdaily, hdet]
  · intro sr hs hok hrname
    have hdet2 : env.details = .ok (body.results.getD {}) := by
      rw [hdetails]
      unfold PolygonService.get_company_details PolygonService.make_request
      simp [h1, hok, Except.map]
    have hcn : companyNameOk (body.results.getD {}) = false := by
      simp [companyNameOk, ResultsBody.nameTruthy, hrname]
    simp only [get_stock_data, hmiss, hdaily, hdet2, hs]
    refine ⟨_, rfl, ?_, ?_⟩
    · simp [hcn]
    · simp [hcn, ScrapeResult.truthy]

/-- A details body with JSON status NOT_FOUND, as Polygon returns for an
unknown ticker. -/
def notFoundBody : PolygonBody :=
  { status := some "NOT_FOUND", message := some "Ticker not found." }

/-- An environment whose company-details response carries status NOT_FOUND. -/
def envDetailsNotFound : FetchEnv :=
  { daily := .ok dailyOkBody,
    details := PolygonService.get_company_details
      (.response 200 (some notFoundBody)),
    scrape := .ok ⟨{}, []⟩ }

/-- Witness for C9: the NOT_FOUND details response surfaces as a hard 404. -/
theorem c9_details_not_found_is_hard_witness :
    (get_stock_data envDetailsNotFound emptyStockCache 0 0 "ZZZZ").result =
      .error ⟨404, .statusMessage (some "NOT_FOUND") "Ticker not found."⟩ := by
  have h := c9_details_not_found_is_hard envDetailsNotFound emptyStockCache
    0 0 "ZZZZ" dailyOkBody 200 notFoundBody (by rfl) rfl rfl (by norm_num)
  exact h.1 (Or.inr rfl)
